import Mathlib

/-!
Verification of the `dataset` library: a key-value dataset abstraction with
composition decorators (subset, map, zip/compound), a saving contract, a
cache-through auto-saving layer, and parent/child shared-resource counting.

The Python classes of `core.py`, `save.py` and `tree.py` are shallowly
embedded: a read-only dataset becomes a structure of `keys`, a membership
test and a fallible read; a mutable destination becomes an association
list threaded through the operations; errors become an inductive type
mirroring the distinct exception messages of `errors.py`.
-/

namespace DatasetLib

/-- Errors raised by the library, one constructor per distinct message:
`KeyError(key)` from a dict-style lookup miss, `errors.invalid_key_error`
(message `key %s not a valid key`), `key %s not present in base` from
`DataSubset._check_keys`, `Already open %s` and `key %s not present` from
`tree.ParentDataset`, and `IOError` from `SavingDataset.save_dataset`. -/
inductive DSError (κ : Type) where
  | keyNotFound (k : κ)
  | invalidKey (k : κ)
  | notPresentInBase (k : κ)
  | alreadyOpenChild
  | childNotRegistered
  | ioNotOpen
  deriving DecidableEq, Repr

/-- A read-only dataset (`core.Dataset`): an enumerable key-domain `keys`,
a membership test `mem` (`__contains__`, which subclasses may override
independently of `keys`), and a fallible point read `get` (`__getitem__`). -/
structure DS (κ α : Type) where
  keys : List κ
  mem : κ → Bool
  get : κ → Except (DSError κ) α

variable {κ α β : Type} [DecidableEq κ]

/-- A mutable destination store (a dict-backed `SavingDataset`), as an
association list: later bindings shadow nothing because `save` erases first. -/
def Store (κ α : Type) : Type := List (κ × α)

namespace Store

/-- Point lookup in the store. -/
def lookup [DecidableEq κ] : Store κ α → κ → Option α
  | [], _ => none
  | (k₂, v) :: rest, k => if k = k₂ then some v else lookup rest k

/-- `__contains__` on a dict-backed store. -/
def contains [DecidableEq κ] (s : Store κ α) (k : κ) : Bool :=
  (s.lookup k).isSome

/-- `delete_item`: remove every binding of `k`. -/
def erase [DecidableEq κ] (s : Store κ α) (k : κ) : Store κ α :=
  List.filter (fun p => decide (p.1 ≠ k)) s

/-- `save_item` on a dict-backed store: bind `k` to `v`. -/
def save [DecidableEq κ] (s : Store κ α) (k : κ) (v : α) : Store κ α :=
  (k, v) :: s.erase k

/-- `__getitem__` on a dict-backed store: raises `KeyError(key)` on a miss. -/
def get [DecidableEq κ] (s : Store κ α) (k : κ) : Except (DSError κ) α :=
  match s.lookup k with
  | some v => Except.ok v
  | none => Except.error (DSError.keyNotFound k)

theorem lookup_erase_self (s : Store κ α) (k : κ) : (s.erase k).lookup k = none := by
  induction s with
  | nil => rfl
  | cons p rest ih =>
      by_cases h : p.1 = k
      · simpa [Store.erase, List.filter, h] using ih
      · simpa [Store.erase, List.filter, h, Store.lookup, Ne.symm h] using ih

theorem lookup_erase_ne (s : Store κ α) (k k₂ : κ) (h : k ≠ k₂) :
    (s.erase k₂).lookup k = s.lookup k := by
  induction s with
  | nil => rfl
  | cons p rest ih =>
      by_cases hp : p.1 = k₂
      · simpa [Store.erase, List.filter, hp, Store.lookup, h] using ih
      · by_cases hk : k = p.1
        · simp [Store.erase, List.filter, hp, Store.lookup, hk]
        · simpa [Store.erase, List.filter, hp, Store.lookup, hk, h] using ih

theorem lookup_save_self (s : Store κ α) (k : κ) (v : α) :
    (s.save k v).lookup k = some v := by
  simp [Store.save, Store.lookup]

theorem lookup_save_ne (s : Store κ α) (k k₂ : κ) (v : α) (h : k ≠ k₂) :
    (s.save k₂ v).lookup k = s.lookup k := by
  simp [Store.save, Store.lookup, h, lookup_erase_ne s k k₂ h]

theorem contains_save_self (s : Store κ α) (k : κ) (v : α) :
    (s.save k v).contains k = true := by
  simp [Store.contains, lookup_save_self]

theorem contains_save_ne (s : Store κ α) (k k₂ : κ) (v : α) (h : k ≠ k₂) :
    (s.save k₂ v).contains k = s.contains k := by
  simp [Store.contains, lookup_save_ne s k k₂ v h]

theorem contains_erase_ne (s : Store κ α) (k k₂ : κ) (h : k ≠ k₂) :
    (s.erase k₂).contains k = s.contains k := by
  simp [Store.contains, lookup_erase_ne s k k₂ h]

end Store

/-! ## The cache-through layer: `save.AutoSavingDataset` -/

/-- `AutoSavingDataset.keys` (save.py): `return self._src.keys()`. -/
def autoSaving_keys (src : DS κ α) : List κ := src.keys

/-- `AutoSavingDataset.__contains__` (save.py): `return key in self._src`. -/
def autoSaving_mem (src : DS κ α) (k : κ) : Bool := src.mem k

/-- `AutoSavingDataset.__getitem__` (save.py): on a destination hit return
the destination's value; on a miss read the source, persist via
`dst.save_item`, and return the value. The result carries the read value,
the destination state after the call, and the number of source reads. -/
def autoSaving_get (src : DS κ α) (dst : Store κ α) (k : κ) :
    Except (DSError κ) α × Store κ α × Nat :=
  if dst.contains k then
    (dst.get k, dst, 0)
  else
    match src.get k with
    | Except.error e => (Except.error e, dst, 1)
    | Except.ok v => (Except.ok v, dst.save k v, 1)

/-- C1: on a destination hit, `get` returns the destination's value with zero
source reads; on a miss it reads the source once, persists the value via
`save_item`, returns it, and afterwards the key is present in the destination
and a second `get` performs zero source reads and returns the saved value. -/
theorem autoSaving_get_cache_through (src : DS κ α) (dst : Store κ α) (k : κ) (v : α) :
    (∀ w, dst.lookup k = some w →
      autoSaving_get src dst k = (Except.ok w, dst, 0)) ∧
    (dst.contains k = false → src.get k = Except.ok v →
      autoSaving_get src dst k = (Except.ok v, dst.save k v, 1) ∧
      (dst.save k v).contains k = true ∧
      autoSaving_get src (dst.save k v) k = (Except.ok v, dst.save k v, 0)) := by
  constructor
  · intro w hw
    have hc : dst.contains k = true := by simp [Store.contains, hw]
    simp [autoSaving_get, hc, Store.get, hw]
  · intro hmiss hsrc
    refine ⟨?_, Store.contains_save_self dst k v, ?_⟩
    · simp [autoSaving_get, hmiss, hsrc]
    · simp [autoSaving_get, Store.contains_save_self, Store.get,
        Store.lookup_save_self]

/-- A concrete one-key source dataset, for witnesses. -/
def sampleSrc : DS String String :=
  DS.mk ["k1"] (fun k => k = "k1") (fun k =>
    if k = "k1" then Except.ok "v1" else Except.error (DSError.keyNotFound k))

/-- The empty destination store over strings, for witnesses. -/
def emptyDst : Store String String := []

/-- Witness for C1 at a concrete source and empty destination. -/
theorem autoSaving_get_cache_through_witness :
    Store.contains emptyDst "k1" = false ∧
    sampleSrc.get "k1" = Except.ok "v1" ∧
    (autoSaving_get sampleSrc emptyDst "k1"
        = (Except.ok "v1", Store.save emptyDst "k1" "v1", 1) ∧
      Store.contains (Store.save emptyDst "k1" "v1") "k1" = true ∧
      autoSaving_get sampleSrc (Store.save emptyDst "k1" "v1") "k1"
        = (Except.ok "v1", Store.save emptyDst "k1" "v1", 0)) :=
  ⟨by decide, by simp [sampleSrc],
    (autoSaving_get_cache_through sampleSrc emptyDst "k1" "v1").2
      (by decide) (by simp [sampleSrc])⟩

/-- C10: when a key is present in the destination but absent from the source,
membership and enumeration reflect the source only, yet `get` succeeds with
the destination's stored value and performs zero source reads. -/
theorem autoSaving_dst_only_key (src : DS κ α) (dst : Store κ α) (k : κ) (v : α)
    (hmem : src.mem k = false) (hkeys : k ∉ src.keys)
    (hdst : dst.lookup k = some v) :
    autoSaving_mem src k = false ∧
    k ∉ autoSaving_keys src ∧
    autoSaving_get src dst k = (Except.ok v, dst, 0) := by
  refine ⟨hmem, hkeys, ?_⟩
  have hc : dst.contains k = true := by simp [Store.contains, hdst]
  simp [autoSaving_get, hc, Store.get, hdst]

/-- Witness for C10: key `"x"` stored in the destination, absent from the source. -/
theorem autoSaving_dst_only_key_witness :
    autoSaving_mem sampleSrc "x" = false ∧
    "x" ∉ autoSaving_keys sampleSrc ∧
    autoSaving_get sampleSrc [("x", "stored")] "x"
      = (Except.ok "stored", [("x", "stored")], 0) :=
  autoSaving_dst_only_key sampleSrc [("x", "stored")] "x" "stored"
    (by decide) (by decide) (by decide)

/-! ## Transformation decorators: `core.DataSubset` and `core.MappedDataset` -/

/-- The reading view of `core.DataSubset`: `keys` returns the fixed key set,
`__contains__` is the inherited `key in self.keys()`, and `__getitem__`
raises `invalid_key_error` outside the fixed set, else reads the base. -/
def DS.subsetView [DecidableEq κ] (D : DS κ α) (K : List κ) : DS κ α :=
  DS.mk K (fun k => decide (k ∈ K))
    (fun k => if k ∈ K then D.get k else Except.error (DSError.invalidKey k))

/-- `core.MappedDataset`: `keys`/`__contains__` delegate to the base,
`__getitem__` applies `map_fn` to the base's value. -/
def DS.map (D : DS κ α) (f : α → β) : DS κ β :=
  DS.mk D.keys D.mem (fun k => (D.get k).map f)

/-- `MappedDataset.subset` (core.py 253-254): subset the base, then map. -/
def mappedSubset [DecidableEq κ] (D : DS κ α) (f : α → β) (K : List κ) : DS κ β :=
  DS.map (DS.subsetView D K) f

/-- C7: for `K ⊆ keys(D)`, the subset's key set is `K`, reads inside `K`
agree with the base, and reads outside `K` fail with `invalidKey`, an error
distinct from every `keyNotFound` error. -/
theorem subsetView_spec (D : DS κ α) (K : List κ)
    (_hK : ∀ x ∈ K, x ∈ D.keys) (k : κ) :
    (∀ x, x ∈ (DS.subsetView D K).keys ↔ x ∈ K) ∧
    (k ∈ K → (DS.subsetView D K).get k = D.get k) ∧
    (k ∉ K → (DS.subsetView D K).get k = Except.error (DSError.invalidKey k) ∧
      ∀ k₂ : κ, (DSError.invalidKey k : DSError κ) ≠ DSError.keyNotFound k₂) := by
  refine ⟨fun x => Iff.rfl, fun hk => ?_, fun hk => ⟨?_, fun k₂ h => ?_⟩⟩
  · simp [DS.subsetView, hk]
  · simp [DS.subsetView, hk]
  · exact DSError.noConfusion h

/-- Witness for C7 over a two-key base narrowed to one key. -/
def sampleBase : DS String Nat :=
  DS.mk ["k1", "k2"] (fun k => decide (k = "k1" ∨ k = "k2")) (fun k =>
    if k = "k1" then Except.ok 1
    else if k = "k2" then Except.ok 2
    else Except.error (DSError.keyNotFound k))

/-- Witness for C7: the subset over `{k1}` agrees with the base on `k1` and
rejects `k2` with `invalidKey`. -/
theorem subsetView_spec_witness :
    (DS.subsetView sampleBase ["k1"]).get "k1" = sampleBase.get "k1" ∧
    (DS.subsetView sampleBase ["k1"]).get "k2"
      = Except.error (DSError.invalidKey "k2") :=
  ⟨(subsetView_spec sampleBase ["k1"] (by decide) "k1").2.1 (by decide),
    ((subsetView_spec sampleBase ["k1"] (by decide) "k2").2.2 (by decide)).1⟩

/-- C8: mapping applies `f` to every read value and keeps the key-domain;
`MappedDataset.subset` equals subset-then-map by construction, and it is
also equivalent (same keys, same reads) to taking the generic subset view
of the mapped dataset. -/
theorem mapped_spec (D : DS κ α) (f : α → β) (K : List κ) (k : κ) (v : α) :
    ((DS.map D f).get k = (D.get k).map f) ∧
    (D.get k = Except.ok v → (DS.map D f).get k = Except.ok (f v)) ∧
    ((DS.map D f).keys = D.keys) ∧
    ((mappedSubset D f K).keys = (DS.map (DS.subsetView D K) f).keys ∧
      ∀ x, (mappedSubset D f K).get x = (DS.map (DS.subsetView D K) f).get x) ∧
    ((mappedSubset D f K).keys = (DS.subsetView (DS.map D f) K).keys ∧
      ∀ x, (mappedSubset D f K).get x = (DS.subsetView (DS.map D f) K).get x) := by
  refine ⟨rfl, fun hv => ?_, rfl, ⟨rfl, fun x => rfl⟩, ⟨rfl, fun x => ?_⟩⟩
  · simp [DS.map, hv, Except.map]
  · by_cases hx : x ∈ K
    · simp [mappedSubset, DS.map, DS.subsetView, hx]
    · simp [mappedSubset, DS.map, DS.subsetView, hx, Except.map]

/-- Witness for C8 at a concrete base, `f = Nat.succ`, `K = {k1}`. -/
theorem mapped_spec_witness :
    (DS.map sampleBase Nat.succ).get "k1" = Except.ok 2 ∧
    (mappedSubset sampleBase Nat.succ ["k1"]).get "k1"
      = (DS.subsetView (DS.map sampleBase Nat.succ) ["k1"]).get "k1" :=
  ⟨(mapped_spec sampleBase Nat.succ ["k1"] "k1" 1).2.1 (by simp [sampleBase]),
    (mapped_spec sampleBase Nat.succ ["k1"] "k1" 1).2.2.2.2.2 "k1"⟩

/-! ## `DataSubset` construction (core.py `__init__` / `_check_keys`) -/

/-- `DataSubset._check_keys` (core.py 268-272): when the stored
`_check_present` field is set, raise `key %s not present in base` for the
first fixed key whose membership test in the base fails. -/
def dataSubset_check_keys (base : DS κ α) (K : List κ) (cpField : Bool) :
    Except (DSError κ) Unit :=
  if cpField then
    match K.find? (fun k => ! base.mem k) with
    | some k => Except.error (DSError.notPresentInBase k)
    | none => Except.ok ()
  else Except.ok ()

/-- `DataSubset.__init__` (core.py 259-266). Line 262 stores
`self._check_present = True`, a constant, so the `checkPresent` argument is
never consulted; when the base reports open, `_check_keys` runs eagerly. -/
def dataSubset_init (base : DS κ α) (K : List κ) (checkPresent : Bool)
    (baseIsOpen : Bool) : Except (DSError κ) (DS κ α) :=
  let cpField := true
  let _ := checkPresent
  if baseIsOpen then
    match dataSubset_check_keys base K cpField with
    | Except.error e => Except.error e
    | Except.ok _ => Except.ok (DS.subsetView base K)
  else Except.ok (DS.subsetView base K)

/-- C6 (code bug): with the base open and `x` the first fixed key missing
from it, construction fails with `key x not present in base` for every value
of `checkPresent` — deferred validation (`checkPresent = false`) does not
succeed silently, because line 262 hardcodes the stored flag to `True`. -/
theorem dataSubset_init_ignores_checkPresent (base : DS κ α) (K : List κ)
    (x : κ) (cp : Bool) (hfind : K.find? (fun k => ! base.mem k) = some x) :
    dataSubset_init base K cp true = dataSubset_init base K true true ∧
    dataSubset_init base K cp true
      = Except.error (DSError.notPresentInBase x) := by
  exact ⟨rfl, by simp [dataSubset_init, dataSubset_check_keys, hfind]⟩

/-- Witness for C6: subsetting the two-key base to `{zz}` with
`check_present=False` still raises at construction. -/
theorem dataSubset_init_ignores_checkPresent_witness :
    dataSubset_init sampleBase ["zz"] false true
      = dataSubset_init sampleBase ["zz"] true true ∧
    dataSubset_init sampleBase ["zz"] false true
      = Except.error (DSError.notPresentInBase "zz") :=
  dataSubset_init_ignores_checkPresent sampleBase ["zz"] "zz" false (by decide)

/-! ## Writable subsets: `save.SavingDataSubset` vs `core.DataSubset` -/

/-- `SavingDataSubset.save_item` (save.py 77-78): forwards the write to the
base unconditionally — the fixed key set is not consulted. -/
def savingDataSubset_save_item (base : Store κ α) (_K : List κ) (k : κ)
    (v : α) : Except (DSError κ) (Store κ α) :=
  Except.ok (base.save k v)

/-- `SavingDataSubset.delete_item` (save.py 80-81): forwards the delete to
the base unconditionally. -/
def savingDataSubset_delete_item (base : Store κ α) (_K : List κ) (k : κ) :
    Except (DSError κ) (Store κ α) :=
  Except.ok (base.erase k)

/-- `core.DataSubset.save_item` (core.py 293-297): forwards only keys inside
the fixed set, raising `invalid_key_error` otherwise. -/
def dataSubset_save_item (base : Store κ α) (K : List κ) (k : κ) (v : α) :
    Except (DSError κ) (Store κ α) :=
  if k ∈ K then Except.ok (base.save k v)
  else Except.error (DSError.invalidKey k)

/-- `core.DataSubset.delete_item` (core.py 299-303). -/
def dataSubset_delete_item (base : Store κ α) (K : List κ) (k : κ) :
    Except (DSError κ) (Store κ α) :=
  if k ∈ K then Except.ok (base.erase k)
  else Except.error (DSError.invalidKey k)

/-- C3 (code bug): for a key outside the fixed set, `SavingDataSubset`
forwards the write and the delete to the base instead of raising, while the
overridden `core.DataSubset` methods raise `invalidKey` as the spec states. -/
theorem savingDataSubset_write_unvalidated (base : Store κ α) (K : List κ)
    (k : κ) (v : α) (hk : k ∉ K) :
    savingDataSubset_save_item base K k v = Except.ok (base.save k v) ∧
    savingDataSubset_delete_item base K k = Except.ok (base.erase k) ∧
    savingDataSubset_save_item base K k v
      ≠ Except.error (DSError.invalidKey k) ∧
    dataSubset_save_item base K k v = Except.error (DSError.invalidKey k) ∧
    dataSubset_delete_item base K k = Except.error (DSError.invalidKey k) := by
  refine ⟨rfl, rfl, fun h => ?_, ?_, ?_⟩
  · exact Except.noConfusion h
  · simp [dataSubset_save_item, hk]
  · simp [dataSubset_delete_item, hk]

/-- Witness for C3: a subset fixed to `{a}` writes and deletes key `b` on
the base without error. -/
theorem savingDataSubset_write_unvalidated_witness :
    savingDataSubset_save_item emptyDst ["a"] "b" "v"
      = Except.ok (Store.save emptyDst "b" "v") ∧
    savingDataSubset_delete_item emptyDst ["a"] "b"
      = Except.ok (Store.erase emptyDst "b") ∧
    dataSubset_save_item emptyDst ["a"] "b" "v"
      = Except.error (DSError.invalidKey "b") :=
  ⟨(savingDataSubset_write_unvalidated emptyDst ["a"] "b" "v" (by decide)).1,
    (savingDataSubset_write_unvalidated emptyDst ["a"] "b" "v" (by decide)).2.1,
    (savingDataSubset_write_unvalidated emptyDst ["a"] "b" "v"
      (by decide)).2.2.2.1⟩

/-! ## Bulk save: `save.SavingDataset.save_dataset` -/

/-- Observable events of one `save_dataset` run: a progress tick
(`bar.next()`), a `delete_item`, and a `save_item`, each tagged with its key. -/
inductive SEvent (κ : Type) where
  | progress (k : κ)
  | del (k : κ)
  | save (k : κ)
  deriving DecidableEq, Repr

/-- The key list `save_dataset` computes before looping (save.py 30-32):
all source keys when overwriting, else the source keys absent from self. -/
def writeKeys (D : DS κ α) (dst : Store κ α) (overwrite : Bool) : List κ :=
  if overwrite then D.keys else D.keys.filter (fun k => ! dst.contains k)

/-- The per-key loop of `save_dataset` (save.py 38-43): tick progress,
delete the key if currently present, read the source value, save it. -/
def save_dataset_go (D : DS κ α) [DecidableEq κ] :
    List κ → Store κ α → Except (DSError κ) (Store κ α) × List (SEvent κ)
  | [], dst => (Except.ok dst, [])
  | k :: ks, dst =>
    let step : Store κ α × List (SEvent κ) :=
      if dst.contains k then (dst.erase k, [SEvent.progress k, SEvent.del k])
      else (dst, [SEvent.progress k])
    match D.get k with
    | Except.error e => (Except.error e, step.2)
    | Except.ok v =>
      let rest := save_dataset_go D ks (step.1.save k v)
      (rest.1, step.2 ++ SEvent.save k :: rest.2)

/-- `save_dataset` (save.py 26-44): fail if not open, compute the key list,
return immediately (no events) when it is empty, else run the loop. -/
def save_dataset (D : DS κ α) (dst : Store κ α) (overwrite : Bool)
    (dstOpen : Bool) : Except (DSError κ) (Store κ α) × List (SEvent κ) :=
  if dstOpen = false then (Except.error DSError.ioNotOpen, [])
  else
    let ks := writeKeys D dst overwrite
    if ks.isEmpty then (Except.ok dst, [])
    else save_dataset_go D ks dst

/-- The event trace the loop should produce for distinct keys, measured
against the initial store: per key one progress tick, a delete exactly when
the key was initially present, then the save. -/
def expectedEvents (dst : Store κ α) : List κ → List (SEvent κ)
  | [] => []
  | k :: ks =>
    (SEvent.progress k :: (if dst.contains k then [SEvent.del k] else []))
      ++ SEvent.save k :: expectedEvents dst ks

/-- The keys actually written, read off an event trace. -/
def savedKeys (evs : List (SEvent κ)) : List κ :=
  evs.filterMap (fun e => match e with | SEvent.save k => some k | _ => none)

theorem expectedEvents_congr (dst dst₂ : Store κ α) (ks : List κ)
    (h : ∀ k ∈ ks, dst.contains k = dst₂.contains k) :
    expectedEvents dst ks = expectedEvents dst₂ ks := by
  induction ks with
  | nil => rfl
  | cons k ks ih =>
      have hk : dst.contains k = dst₂.contains k := h k (by simp)
      have ih₂ := ih (fun k₂ hk₂ => h k₂ (by simp [hk₂]))
      simp [expectedEvents, hk, ih₂]

theorem savedKeys_expectedEvents (dst : Store κ α) (ks : List κ) :
    savedKeys (expectedEvents dst ks) = ks := by
  induction ks with
  | nil => rfl
  | cons k ks ih =>
      by_cases hc : dst.contains k <;>
        simp [expectedEvents, savedKeys, hc, List.filterMap_append] <;>
        simpa [savedKeys] using ih

theorem save_dataset_go_events (D : DS κ α) (ks : List κ) (dst : Store κ α)
    (hnd : ks.Nodup) (hget : ∀ k ∈ ks, ∃ v, D.get k = Except.ok v) :
    (save_dataset_go D ks dst).2 = expectedEvents dst ks := by
  induction ks generalizing dst with
  | nil => rfl
  | cons k ks ih =>
      obtain ⟨v, hv⟩ := hget k (by simp)
      have hnotmem : k ∉ ks := (List.nodup_cons.mp hnd).1
      have hnd₂ : ks.Nodup := (List.nodup_cons.mp hnd).2
      have hget₂ : ∀ k₂ ∈ ks, ∃ w, D.get k₂ = Except.ok w :=
        fun k₂ hk₂ => hget k₂ (by simp [hk₂])
      by_cases hc : dst.contains k
      · have hcongr : ∀ k₂ ∈ ks,
            ((dst.erase k).save k v).contains k₂ = dst.contains k₂ := by
          intro k₂ hk₂
          have hne : k₂ ≠ k := fun h => hnotmem (h ▸ hk₂)
          rw [Store.contains_save_ne _ _ _ _ hne, Store.contains_erase_ne _ _ _ hne]
        simp [save_dataset_go, hc, hv, expectedEvents,
          ih ((dst.erase k).save k v) hnd₂ hget₂,
          expectedEvents_congr ((dst.erase k).save k v) dst ks hcongr]
      · have hcongr : ∀ k₂ ∈ ks,
            (dst.save k v).contains k₂ = dst.contains k₂ := by
          intro k₂ hk₂
          have hne : k₂ ≠ k := fun h => hnotmem (h ▸ hk₂)
          rw [Store.contains_save_ne _ _ _ _ hne]
        simp [save_dataset_go, hc, hv, expectedEvents,
          ih (dst.save k v) hnd₂ hget₂,
          expectedEvents_congr (dst.save k v) dst ks hcongr]

/-- C2: against an open destination, `save_dataset` targets all source keys
when overwriting and exactly the source keys absent from the destination
otherwise; an empty target set is a complete no-op (no events, store
unchanged); and the event trace is, per targeted key, a progress tick, a
delete exactly when the key was already present, then the save — so every
rewrite of a present key deletes the old value first. -/
theorem save_dataset_spec (D : DS κ α) (dst : Store κ α) (overwrite : Bool)
    (hnd : D.keys.Nodup) (hget : ∀ k ∈ D.keys, ∃ v, D.get k = Except.ok v) :
    (overwrite = true → writeKeys D dst overwrite = D.keys) ∧
    (overwrite = false → ∀ k, k ∈ writeKeys D dst overwrite ↔
      k ∈ D.keys ∧ dst.contains k = false) ∧
    (writeKeys D dst overwrite = [] →
      save_dataset D dst overwrite true = (Except.ok dst, [])) ∧
    ((save_dataset D dst overwrite true).2
      = expectedEvents dst (writeKeys D dst overwrite)) ∧
    (savedKeys (save_dataset D dst overwrite true).2
      = writeKeys D dst overwrite) := by
  have hndw : (writeKeys D dst overwrite).Nodup := by
    unfold writeKeys
    by_cases h : overwrite = true
    · simpa [h] using hnd
    · simp [h]
      exact hnd.filter _
  have hgetw : ∀ k ∈ writeKeys D dst overwrite, ∃ v, D.get k = Except.ok v := by
    intro k hk
    apply hget
    unfold writeKeys at hk
    by_cases h : overwrite = true
    · simpa [h] using hk
    · simp [h] at hk
      exact hk.1
  refine ⟨fun h => by simp [writeKeys, h], fun h k => ?_, fun h => ?_, ?_, ?_⟩
  · simp [writeKeys, h, List.mem_filter]
  · simp [save_dataset, h]
  · by_cases h : (writeKeys D dst overwrite).isEmpty
    · have : writeKeys D dst overwrite = [] := List.isEmpty_iff.mp h
      simp [save_dataset, h, this, expectedEvents]
    · simp [save_dataset, h]
      exact save_dataset_go_events D _ dst hndw hgetw
  · by_cases h : (writeKeys D dst overwrite).isEmpty
    · have : writeKeys D dst overwrite = [] := List.isEmpty_iff.mp h
      simp [save_dataset, h, this, savedKeys]
    · simp [save_dataset, h, save_dataset_go_events D _ dst hndw hgetw,
        savedKeys_expectedEvents]

/-- Witness for C2: filling an empty destination from the one-key source
emits progress-then-save for `k1`; a second, already-filled run is a no-op. -/
theorem save_dataset_spec_witness :
    (save_dataset sampleSrc emptyDst false true).2
      = expectedEvents emptyDst (writeKeys sampleSrc emptyDst false) ∧
    savedKeys (save_dataset sampleSrc emptyDst false true).2
      = writeKeys sampleSrc emptyDst false ∧
    save_dataset sampleSrc (Store.save emptyDst "k1" "v1") false true
      = (Except.ok (Store.save emptyDst "k1" "v1"), []) := by
  have hget : ∀ k ∈ sampleSrc.keys, ∃ v, sampleSrc.get k = Except.ok v := by
    intro k hk
    simp [sampleSrc] at hk
    exact ⟨"v1", by simp [sampleSrc, hk]⟩
  refine ⟨(save_dataset_spec sampleSrc emptyDst false (by decide) hget).2.2.2.1,
    (save_dataset_spec sampleSrc emptyDst false (by decide) hget).2.2.2.2,
    (save_dataset_spec sampleSrc (Store.save emptyDst "k1" "v1") false
      (by decide) hget).2.2.1 (by decide)⟩

/-! ## Key intersection and `ZippedDataset.keys` -/

/-- Modelled from the spec: the sources import a `sets` module (absent from
the repository sources) whose `entire_set` is, per the spec's data model,
the universal key-domain that set-intersection starts from ("Key-domain =
intersection of all children's key-domains"). A key set is either the
entire set or a finite list of keys. -/
inductive KeySet (κ : Type) where
  | entire
  | fin (ks : List κ)
  deriving DecidableEq, Repr

/-- `s.intersection(keys)`: the entire set meets `ks` in `ks`; a finite set
meets `ks` by filtering. -/
def KeySet.inter [DecidableEq κ] : KeySet κ → List κ → KeySet κ
  | KeySet.entire, ks => KeySet.fin ks
  | KeySet.fin xs, ks => KeySet.fin (xs.filter (fun x => decide (x ∈ ks)))

/-- Boolean membership in a key set. -/
def KeySet.memb [DecidableEq κ] (x : κ) : KeySet κ → Bool
  | KeySet.entire => true
  | KeySet.fin ks => decide (x ∈ ks)

/-- `core.key_intersection` (core.py 152-156): fold `intersection` over the
key lists, starting from the entire set. -/
def key_intersection [DecidableEq κ] (l : List (List κ)) : KeySet κ :=
  l.foldl KeySet.inter KeySet.entire

/-- `ZippedDataset.keys` — inherited from `CompoundDataset.keys`
(core.py 189-192), with `_keys = None` set by `ZippedDataset.__init__`
(core.py 222): the intersection of every child dataset's key list. -/
def zippedDataset_keys (ds : List (DS κ α)) : KeySet κ :=
  key_intersection (ds.map DS.keys)

/-- A two-key first dataset, for the C4 counterexample. -/
def zipD1 : DS String Nat :=
  DS.mk ["a", "b"] (fun k => decide (k = "a" ∨ k = "b")) (fun _ => Except.ok 0)

/-- A one-key second dataset, for the C4 counterexample. -/
def zipD2 : DS String Nat :=
  DS.mk ["b"] (fun k => decide (k = "b")) (fun _ => Except.ok 1)

/-- C4 counterexample: zipping a `{a, b}` dataset with a `{b}` dataset yields
the key set `{b}`, not the first dataset's `{a, b}`: key `a` of the first
dataset is dropped, so `keys()` does not delegate to the first dataset only. -/
theorem zippedDataset_keys_counterexample :
    zippedDataset_keys [zipD1, zipD2] = KeySet.fin ["b"] ∧
    "a" ∈ zipD1.keys ∧
    KeySet.memb "a" (zippedDataset_keys [zipD1, zipD2]) = false ∧
    zippedDataset_keys [zipD1, zipD2] ≠ KeySet.fin zipD1.keys := by decide

theorem memb_foldl_inter (x : κ) (a : List κ) (l : List (List κ)) :
    KeySet.memb x (l.foldl KeySet.inter (KeySet.fin a)) = true
      ↔ (x ∈ a ∧ ∀ b ∈ l, x ∈ b) := by
  induction l generalizing a with
  | nil => simp [KeySet.memb]
  | cons b l ih =>
      rw [List.foldl_cons]
      show KeySet.memb x
        (l.foldl KeySet.inter
          (KeySet.fin (a.filter (fun y => decide (y ∈ b))))) = true ↔ _
      rw [ih]
      simp [List.mem_filter]
      tauto

/-- C4 amended: a zipped dataset's key-domain is the intersection of all
children's key-domains — a key is in `keys()` of a nonempty zip exactly when
every position contains it. -/
theorem zippedDataset_keys_intersection (d : DS κ α) (ds : List (DS κ α))
    (x : κ) :
    KeySet.memb x (zippedDataset_keys (d :: ds)) = true
      ↔ (x ∈ d.keys ∧ ∀ d₂ ∈ ds, x ∈ d₂.keys) := by
  show KeySet.memb x
    ((ds.map DS.keys).foldl KeySet.inter (KeySet.inter KeySet.entire d.keys))
      = true ↔ _
  rw [show KeySet.inter KeySet.entire d.keys = KeySet.fin d.keys from rfl,
    memb_foldl_inter]
  simp

/-! ## `CompoundDataset.open` failure behaviour -/

/-- A child of a compound dataset, for the open-failure analysis: its open
flag and whether its `open()` raises. -/
structure ChildRes where
  isOpen : Bool
  failsOnOpen : Bool
  deriving DecidableEq, Repr

/-- One child's `open()`: raise, or become open. -/
def ChildRes.openC (c : ChildRes) : Except Unit ChildRes :=
  if c.failsOnOpen then Except.error ()
  else Except.ok (ChildRes.mk true c.failsOnOpen)

/-- The state a successfully opened child ends in. -/
def ChildRes.opened (c : ChildRes) : ChildRes :=
  ChildRes.mk true c.failsOnOpen

/-- `CompoundDataset.open` (core.py 200-202): open each child in order with
no error handling; a raise propagates at once, leaving every child — opened
or not — exactly as it is. Returns each child's final state and the error,
if any. -/
def compound_open : List ChildRes → List ChildRes × Option Unit
  | [] => ([], none)
  | c :: rest =>
    match c.openC with
    | Except.error e => (c :: rest, some e)
    | Except.ok c₂ =>
      let r := compound_open rest
      (c₂ :: r.1, r.2)

/-- C5 counterexample: with a healthy first child and a failing second one,
`open` propagates the failure while the first child is left open — the
claimed close-before-propagate cleanup does not happen. -/
theorem compound_open_counterexample :
    compound_open [ChildRes.mk false false, ChildRes.mk false true]
      = ([ChildRes.mk true false, ChildRes.mk false true], some ()) ∧
    (compound_open [ChildRes.mk false false, ChildRes.mk false true]).2
      = some () ∧
    List.any (compound_open
      [ChildRes.mk false false, ChildRes.mk false true]).1
      (fun c => c.isOpen) = true := by decide

/-- C5 amended: when the children are a successfully-opening prefix, a
failing child, and an untouched suffix, `open` raises and every child of the
prefix remains open: no cleanup precedes the propagation. -/
theorem compound_open_no_cleanup (pre post : List ChildRes) (bad : ChildRes)
    (hpre : ∀ c ∈ pre, c.failsOnOpen = false) (hbad : bad.failsOnOpen = true) :
    compound_open (pre ++ bad :: post)
      = (pre.map ChildRes.opened ++ bad :: post, some ()) ∧
    ∀ c ∈ pre.map ChildRes.opened, c.isOpen = true := by
  constructor
  · induction pre with
    | nil => simp [compound_open, ChildRes.openC, hbad]
    | cons c cs ih =>
        have hc : c.failsOnOpen = false := hpre c (by simp)
        have ih₂ := ih (fun c₂ hc₂ => hpre c₂ (by simp [hc₂]))
        simp [compound_open, ChildRes.openC, hc, ih₂, ChildRes.opened]
  · intro c hc
    rw [List.mem_map] at hc
    obtain ⟨c₂, _, heq⟩ := hc
    rw [← heq]
    rfl

/-- Witness for the amended C5 at one healthy and one failing child. -/
theorem compound_open_no_cleanup_witness :
    compound_open ([ChildRes.mk false false] ++ ChildRes.mk false true :: [])
      = ([ChildRes.mk false false].map ChildRes.opened
          ++ ChildRes.mk false true :: [], some ()) :=
  (compound_open_no_cleanup [ChildRes.mk false false] []
    (ChildRes.mk false true) (by decide) (by decide)).1

/-! ## Parent/child shared-resource counting (`tree.py`) -/

/-- The physical resource behind a `ParentDataset`: its open flag and the
counts of physical `open()` and `close()` calls observed. -/
structure Resource where
  isOpen : Bool
  opens : Nat
  closes : Nat
  deriving DecidableEq, Repr

/-- A physical open of the resource. -/
def Resource.physOpen (r : Resource) : Resource :=
  Resource.mk true (r.opens + 1) r.closes

/-- A physical close of the resource. -/
def Resource.physClose (r : Resource) : Resource :=
  Resource.mk false r.opens (r.closes + 1)

/-- `ParentDataset` state: the registered children and the resource. -/
structure ParentState (χ : Type) where
  openChildren : List χ
  res : Resource

/-- `ParentDataset._on_child_opened` (tree.py 9-14): re-registering an
already-registered child raises `Already open`; otherwise the child is
registered and the resource is physically opened only if not already open. -/
def onChildOpened {χ : Type} [DecidableEq χ] (p : ParentState χ) (c : χ) :
    Except (DSError χ) (ParentState χ) :=
  if c ∈ p.openChildren then Except.error DSError.alreadyOpenChild
  else
    let oc := c :: p.openChildren
    if p.res.isOpen then Except.ok (ParentState.mk oc p.res)
    else Except.ok (ParentState.mk oc p.res.physOpen)

/-- `ParentDataset._on_child_closed` (tree.py 16-21): deregistering a child
not currently registered raises; otherwise the child is removed and the
resource is physically closed only when no registered child remains. -/
def onChildClosed {χ : Type} [DecidableEq χ] (p : ParentState χ) (c : χ) :
    Except (DSError χ) (ParentState χ) :=
  if c ∈ p.openChildren then
    let oc := p.openChildren.filter (fun x => decide (x ≠ c))
    if oc.isEmpty then Except.ok (ParentState.mk oc p.res.physClose)
    else Except.ok (ParentState.mk oc p.res)
  else Except.error DSError.childNotRegistered

/-- C9: from the closed state, opening two distinct children performs exactly
one physical open (at the first registration); closing one child leaves the
resource open with no physical close; closing the second performs exactly one
physical close; re-opening a registered child and closing an unregistered
child both raise. -/
theorem parent_child_refcount {χ : Type} [DecidableEq χ] (c₁ c₂ : χ)
    (h : c₁ ≠ c₂) :
    onChildOpened (ParentState.mk [] (Resource.mk false 0 0)) c₁
      = Except.ok (ParentState.mk [c₁] (Resource.mk true 1 0)) ∧
    onChildOpened (ParentState.mk [c₁] (Resource.mk true 1 0)) c₂
      = Except.ok (ParentState.mk [c₂, c₁] (Resource.mk true 1 0)) ∧
    onChildClosed (ParentState.mk [c₂, c₁] (Resource.mk true 1 0)) c₁
      = Except.ok (ParentState.mk [c₂] (Resource.mk true 1 0)) ∧
    onChildClosed (ParentState.mk [c₂] (Resource.mk true 1 0)) c₂
      = Except.ok (ParentState.mk [] (Resource.mk false 1 1)) ∧
    onChildOpened (ParentState.mk [c₂, c₁] (Resource.mk true 1 0)) c₁
      = Except.error DSError.alreadyOpenChild ∧
    onChildClosed (ParentState.mk [c₁] (Resource.mk true 1 0)) c₂
      = Except.error DSError.childNotRegistered := by
  refine ⟨?_, ?_, ?_, ?_, ?_, ?_⟩ <;>
    simp [onChildOpened, onChildClosed, Resource.physOpen, Resource.physClose,
      List.filter, h, Ne.symm h, h.symm]

/-- Witness for C9 at children `0` and `1`. -/
theorem parent_child_refcount_witness :
    onChildOpened (ParentState.mk ([] : List Nat) (Resource.mk false 0 0)) 0
      = Except.ok (ParentState.mk [0] (Resource.mk true 1 0)) ∧
    onChildOpened (ParentState.mk [0] (Resource.mk true 1 0)) 1
      = Except.ok (ParentState.mk [1, 0] (Resource.mk true 1 0)) ∧
    onChildClosed (ParentState.mk [1, 0] (Resource.mk true 1 0)) 0
      = Except.ok (ParentState.mk [1] (Resource.mk true 1 0)) ∧
    onChildClosed (ParentState.mk [1] (Resource.mk true 1 0)) 1
      = Except.ok (ParentState.mk [] (Resource.mk false 1 1)) ∧
    onChildOpened (ParentState.mk [1, 0] (Resource.mk true 1 0)) 0
      = Except.error DSError.alreadyOpenChild ∧
    onChildClosed (ParentState.mk [0] (Resource.mk true 1 0)) 1
      = Except.error DSError.childNotRegistered :=
  parent_child_refcount 0 1 (by decide)

end DatasetLib
